import Mathlib

/-!
Shallow embedding of the core of the tg-tool-bot repository and theorems
checking its natural-language specification against the code.

The embedding covers:
* the event-driven forwarding rule engine of `src/forwarding_manager.py`
  (rule creation, start/stop, the inbound-message handler, the
  per-destination fan-out, persistence, restart on boot);
* the account pool of `src/account_manager.py` (`get_available_account`
  and the effective `add_account` / `_test_account_connection`
  registration path).

Two repository-wide defects are load-bearing and are modelled exactly:

1. `forwarding_manager.py` imports only `datetime` from the `datetime`
   module (line 6), yet evaluates `datetime.now(timezone.utc)` throughout
   (lines 202, 290, 358, 437, 452, 467, 484, 497).  Every such evaluation
   raises `NameError: name 'timezone' is not defined` at runtime, and in
   every case the surrounding `try` catches only `sqlite3.Error` (or the
   rescue path itself re-raises), so the exception escapes: no database
   helper ever completes a write, the event handler dies at line 358
   before forwarding, the fan-out loop aborts at its first logging call,
   and `create_forwarding_rule` raises before its INSERT.

2. `TelegramAccountManager.__init__` defines `_config` and `_config_lock`
   but never `config`, and the class has no `config` property or
   `__getattr__`; yet `get_available_account` reads
   `self.config.get('daily_limit', 45)` (line 1694) and the effective
   `_test_account_connection` reads `self.config['sessions_path']`
   (line 1996).  Both raise `AttributeError`, so account selection crashes
   as soon as one usable account is scanned, and registration always fails
   inside the generic `except Exception` branch.

Modelling conventions:
* Python dictionaries/rows become Lean structures; the sqlite tables become
  lists inside a `Db` structure.
* An escaping Python exception is modelled by the `PyResult` type: an
  operation returns `PyResult.exc msg` together with the state exactly as
  the raise left it.
* The engine is modelled as initialized (`_initialized` true,
  `db_connection` set): the claims concern an initialized engine, and
  `restart_active_rules_from_db` — the one operation whose claims hinge on
  the flag, because `initialize` sets `_initialized = True` only *after*
  calling it — takes the flag as an explicit argument.
* Network and client behaviour is supplied by explicit oracle parameters,
  one constructor per branch of the source.
* Timestamps that no claim observes are omitted; calendar dates that
  claims do observe are modelled as integers.
* Telegram chat identifiers are modelled as natural numbers; message text
  as `List Char` with an ASCII `lower` map and a substring test.
-/

namespace TgBot

/-! ### Data model of the forwarding engine (src/forwarding_manager.py) -/

/-- One row of the `forwarding_rules` table (see `setup_database`).
The columns are: id, account_phone, source_chat_id, source_chat_name
(omitted, display only), destination_chat_ids (JSON list), keywords (JSON
list or NULL), status, last_message_id, messages_forwarded, plus timestamps
(omitted). -/
structure Rule where
  id : Nat
  accountPhone : String
  sourceChatId : Nat
  destinationChatIds : List Nat
  keywords : Option (List (List Char))
  status : String
  lastMessageId : Nat
  messagesForwarded : Nat
  deriving DecidableEq

/-- One row of the append-only `forwarded_messages` table. -/
structure FwdRecord where
  ruleId : Nat
  accountPhone : String
  sourceChatId : Nat
  sourceMessageId : Nat
  destinationChatId : Nat
  destinationMessageId : Option Nat
  messageText : List Char
  deriving DecidableEq

/-- One row of the append-only `forwarding_errors` table. -/
structure ErrRecord where
  ruleId : Nat
  accountPhone : String
  errorType : String
  errorMessage : String
  deriving DecidableEq

/-- The forwarding sqlite database. -/
structure Db where
  rules : List Rule
  forwardedMessages : List FwdRecord
  errors : List ErrRecord
  deriving DecidableEq

/-- One entry of `self.forwarding_sessions` (the in-memory session table). -/
structure Session where
  ruleId : Nat
  accountPhone : String
  sourceChatId : Nat
  destinationChatIds : List Nat
  keywords : Option (List (List Char))
  status : String
  messagesForwarded : Nat
  lastMessageId : Nat
  deriving DecidableEq

/-- The session key `f"{account_phone}_{rule_id}"`, modelled as the pair. -/
abbrev SessionKey := String × Nat

/-- The in-memory state of `TelegramForwardingManager`: the database plus
the session dictionary (an association list). -/
structure EngineState where
  db : Db
  sessions : List (SessionKey × Session)
  deriving DecidableEq

/-- Lookup on the session dictionary. -/
def findSession (sessions : List (SessionKey × Session)) (key : SessionKey) :
    Option Session :=
  (sessions.find? (fun kv => decide (kv.1 = key))).map (fun kv => kv.2)

/-- Models `SELECT * FROM forwarding_rules WHERE id = ?`. -/
def findRule (db : Db) (rid : Nat) : Option Rule :=
  db.rules.find? (fun r => decide (r.id = rid))

/-! ### Python exceptions -/

/-- The result of a Python operation that may raise: either a returned
value or an escaping exception carrying `str(e)`. -/
inductive PyResult (α : Type) where
  | ok (val : α)
  | exc (msg : String)
  deriving DecidableEq

/-- The message of the `NameError` raised by every evaluation of
`datetime.now(timezone.utc)` in `forwarding_manager.py`: the module never
imports `timezone`. -/
def nameErrorTimezone : String := "name \x27timezone\x27 is not defined"

/-- The message of the `AttributeError` raised by every `self.config`
access in `TelegramAccountManager`, which defines only `_config`. -/
def attrErrorConfig : String :=
  "\x27TelegramAccountManager\x27 object has no attribute \x27config\x27"

/-! ### The database helpers, all of which raise

Each helper wraps its statement in `try ... except sqlite3.Error`, but the
`NameError` from the unimported `timezone` is raised while building the
statement's arguments — before any SQL executes — and a `NameError` is not
an `sqlite3.Error`, so it escapes the helper and the database is left
unchanged.  (A second, latent bug in `_update_rule_status_in_db`: its
error-message branch names a `last_error` column that `setup_database`
never creates; the `NameError` fires first, so that path is dead.) -/

/-- Models `_update_rule_status_in_db` (lines 448-460): raises `NameError`
at line 452 on every call, before any `UPDATE`. -/
def updateRuleStatusInDb (_db : Db) (_rid : Nat) (_status : String)
    (_errorMessage : Option String) : PyResult Db :=
  .exc nameErrorTimezone

/-- Models `_update_rule_last_message_id_in_db` (lines 462-470): raises
`NameError` at line 467 on every call, before the checkpoint `UPDATE`. -/
def updateRuleLastMessageIdInDb (_db : Db) (_rid _msgId : Nat) : PyResult Db :=
  .exc nameErrorTimezone

/-- Models `log_forwarded_message` (lines 473-487): raises `NameError` at
line 484 on every call, before the `INSERT`; no forwarded-message row can
ever be written. -/
def logForwardedMessage (_db : Db) (_rec : FwdRecord) : PyResult Db :=
  .exc nameErrorTimezone

/-- Models `log_error` (lines 489-500): raises `NameError` at line 497 on
every call, before the `INSERT`; no error row can ever be written, and the
raise aborts whatever loop called it. -/
def logError (_db : Db) (_rec : ErrRecord) : PyResult Db :=
  .exc nameErrorTimezone

/-! ### Keyword filter -/

/-- Python `str.lower` on one ASCII character. -/
def toLowerChar (c : Char) : Char :=
  if 'A' ≤ c ∧ c ≤ 'Z' then Char.ofNat (c.toNat + 32) else c

/-- Python `str.lower` on a text. -/
def lowerStr (s : List Char) : List Char := s.map toLowerChar

/-- Whether two character lists start the same way. -/
def charsStartWith : List Char → List Char → Bool
  | [], _ => true
  | _ :: _, [] => false
  | a :: as, b :: bs => a == b && charsStartWith as bs

/-- Python substring containment `needle in hay`. -/
def isSubstring : List Char → List Char → Bool
  | needle, [] => needle.isEmpty
  | needle, c :: rest => charsStartWith needle (c :: rest) || isSubstring needle rest

/-- The guard `if session['keywords']: if not any(k.lower() in
message_text.lower() for k in session['keywords']): return` of
`forward_message_to_destinations` (lines 389-392), as the condition under
which processing continues.  `None` and the empty list are both falsy in
Python, so both pass unconditionally.  This guard runs before any
`timezone` use, so the filtered-out path is a genuine clean no-op. -/
def keywordGate (keywords : Option (List (List Char))) (text : List Char) : Bool :=
  match keywords with
  | none => true
  | some ks => ks.isEmpty || ks.any (fun k => isSubstring (lowerStr k) (lowerStr text))

/-! ### Fan-out to destinations -/

/-- A new-message event (`event.message.id`, `event.message.message or ""`). -/
structure Event where
  messageId : Nat
  text : List Char
  deriving DecidableEq

/-- The outcome of one destination iteration of the fan-out loop of
`forward_message_to_destinations` (lines 395-430), one constructor per
branch of the source:
* `noClient`: the client was disconnected and reconnection failed;
* `success ids`: `client.forward_messages` returned these messages
  (the message was delivered when the list is non-empty);
* `floodWait w`: `errors.FloodWaitError` with `e.seconds = w`;
* `permission`: `ChatWriteForbiddenError` / `ChannelPrivateError` /
  `UserBannedInChannelError`;
* `peerInvalid`: `PeerIdInvalidError`;
* `otherError`: any other exception from the forward call. -/
inductive DestOutcome where
  | noClient
  | success (destMsgIds : List Nat)
  | floodWait (seconds : Nat)
  | permission
  | peerInvalid
  | otherError
  deriving DecidableEq

/-- The observable trace of the fan-out loop: total seconds slept and the
destinations to which the message was actually delivered, in order.

Each iteration first sleeps the inter-destination delay (line 397).  Then:
* `success` with a non-empty result: the message was delivered, and
  `log_forwarded_message` (line 413) raises `NameError`; the
  `except Exception` clause catches it but its own `log_error` call
  (line 430) raises again, escaping the loop — later destinations are
  never processed;
* `success` with an empty (falsy) result: nothing is logged and the loop
  continues to the next destination;
* `noClient`: `log_error` at line 404 raises inside the `try`, the
  `except Exception` rescue raises again at line 430 — the loop aborts;
* `floodWait`: the `except FloodWaitError` handler calls `log_error`
  (line 419), which raises *before* the `asyncio.sleep(e.seconds + 5)` at
  line 420 — no flood sleep ever happens and the loop aborts;
* `permission` / `peerInvalid` / `otherError`: the respective handler's
  `log_error` call raises and the loop aborts. -/
def fanOutTrace (oracle : Nat → DestOutcome) (delay : Nat) :
    List Nat → Nat × List Nat
  | [] => (0, [])
  | d :: rest =>
      match oracle d with
      | .success ids =>
          if ids.isEmpty then
            let r := fanOutTrace oracle delay rest
            (delay + r.1, r.2)
          else (delay, [d])
      | _ => (delay, [])

/-- The result of one fan-out pass: the Python outcome, the engine state
as the pass left it, the seconds slept, and the destinations to which the
message was delivered before the pass died. -/
structure FanOutResult where
  outcome : PyResult Unit
  state : EngineState
  slept : Nat
  delivered : List Nat
  deriving DecidableEq

/-- Models `forward_message_to_destinations` (lines 379-445).  The
missing-session path (line 381) and the keyword-filtered path (lines
389-392) return cleanly with nothing changed.  When the gate passes, the
loop either aborts at its first logging call (see `fanOutTrace`) or — when
every destination returned a falsy result — completes with
`successful_forwards == 0`, skips the counter update, and then
`_update_rule_last_message_id_in_db` (line 444) raises.  Either way the
pass raises `NameError`, no audit record is appended, the checkpoint never
advances, and neither the database nor the session is mutated (the
in-memory writes at lines 433 and 445 are never reached). -/
def forwardMessageToDestinations (s : EngineState) (key : SessionKey)
    (ev : Event) (oracle : Nat → DestOutcome) (delay : Nat) : FanOutResult :=
  match findSession s.sessions key with
  | none => ⟨.ok (), s, 0, []⟩
  | some sess =>
      if keywordGate sess.keywords ev.text then
        let t := fanOutTrace oracle delay sess.destinationChatIds
        ⟨.exc nameErrorTimezone, s, t.1, t.2⟩
      else ⟨.ok (), s, 0, []⟩

/-- Models the `message_handler` closure registered by
`setup_forwarding_handler` (lines 347-373).  If the session for its key is
missing or no longer `running`, the guard at lines 350-355 returns without
touching anything.  Otherwise line 358 evaluates
`datetime.now(timezone.utc)` — before the assignment mutates anything and
before `forward_message_to_destinations` is called — so the handler raises
`NameError` on every invocation with a running session, leaving the state
unchanged (the event-dispatch loop logs the escaped exception). -/
def messageHandler (s : EngineState) (key : SessionKey) (_ev : Event) :
    PyResult Unit × EngineState :=
  match findSession s.sessions key with
  | none => (.ok (), s)
  | some sess =>
      if sess.status = "running" then (.exc nameErrorTimezone, s)
      else (.ok (), s)

/-! ### Start / stop / restart -/

/-- Remove the first session whose `rule_id` matches, as the lookup loop of
`stop_forwarding` does (`break` after the first hit). -/
def removeFirstSessionWithRule :
    List (SessionKey × Session) → Nat → List (SessionKey × Session)
  | [], _ => []
  | kv :: rest, rid =>
      if kv.2.ruleId = rid then rest
      else kv :: removeFirstSessionWithRule rest rid

/-- Models `stop_forwarding` (lines 502-533).  The first session with the
rule id, if any, is deleted from the session table (line 519) — this
happens first and always sticks.  With `update_db` the source then calls
`_update_rule_status_in_db(rule_id, 'stopped')`, which raises `NameError`
(see `updateRuleStatusInDb`); the enclosing `except Exception` turns this
into the return value `(False, f"Error: {str(e)}")` and nothing is
persisted.  Without `update_db` it returns success. -/
def stopForwarding (s : EngineState) (rid : Nat) (updateDb : Bool) :
    (Bool × String) × EngineState :=
  let sessions := removeFirstSessionWithRule s.sessions rid
  if updateDb then
    match updateRuleStatusInDb s.db rid "stopped" none with
    | .ok db => ((true, "Forwarding stopped successfully."), { db := db, sessions := sessions })
    | .exc e => ((false, "Error: " ++ e), { db := s.db, sessions := sessions })
  else
    ((true, "Forwarding stopped successfully."), { db := s.db, sessions := sessions })

/-- The environment `start_forwarding` consults before its first
`timezone` use: the account pool and protocol client probes. -/
structure FwdEnv where
  clientAvailable : String → Bool
  clientConnected : String → Bool
  connectSucceeds : String → Bool
  authorized : String → Bool

/-- Models `start_forwarding` (lines 254-315).  The early paths — rule
missing, session already running, client unavailable, connect failure,
not authorized — return cleanly without mutating anything.  A rule that
passes every check reaches line 290, `now = datetime.now(timezone.utc)`,
which raises `NameError` *before* the status `UPDATE`, the session insert
and the handler setup; the `except Exception` clause at line 307 then
calls `log_error` (line 309), which raises `NameError` itself, so the
exception escapes `start_forwarding` with no state change. -/
def startForwarding (s : EngineState) (env : FwdEnv) (rid : Nat) :
    PyResult (Bool × String) × EngineState :=
  match findRule s.db rid with
  | none => (.ok (false, "Rule not found"), s)
  | some rule =>
      let phone := rule.accountPhone
      let key : SessionKey := (phone, rid)
      if (findSession s.sessions key).any (fun sess => sess.status == "running") then
        (.ok (true, "Forwarding already running for this rule."), s)
      else if !env.clientAvailable phone then
        (.ok (false, "Account " ++ phone ++ " or its client not available/initialized."), s)
      else if !env.clientConnected phone && !env.connectSucceeds phone then
        (.ok (false, "Failed to connect account " ++ phone), s)
      else if !env.authorized phone then
        (.ok (false, "Account " ++ phone ++ " is not authorized."), s)
      else
        (.exc nameErrorTimezone, s)

/-- The loop of `restart_active_rules_from_db` over the rule snapshot: for
each rule stored as `running`, attempt `start_forwarding`; an escaping
exception from the attempt aborts the loop; a clean failure return makes
the source call `_update_rule_status_in_db(id, 'error', reason)` (line
551), whose `NameError` (see `updateRuleStatusInDb`) escapes — there is no
`try` in the loop — likewise aborting the loop with the demotion never
persisted. -/
def restartLoop (env : FwdEnv) :
    List Rule → EngineState → PyResult Unit × EngineState
  | [], st => (.ok (), st)
  | r :: rest, st =>
      if r.status = "running" then
        match startForwarding st env r.id with
        | (.exc e, st₁) => (.exc e, st₁)
        | (.ok res, st₁) =>
            if res.1 then restartLoop env rest st₁
            else
              match updateRuleStatusInDb st₁.db r.id "error" (some "Restart failed") with
              | .ok db => restartLoop env rest { st₁ with db := db }
              | .exc e => (.exc e, st₁)
      else restartLoop env rest st

/-- Models `restart_active_rules_from_db` (lines 535-552) together with
its `_initialized` guard (lines 537-539).  `initialize` (line 38) calls it
*before* setting `_initialized = True`, so at real startup the guard fires
and the function returns having restarted nothing and touched nothing.
Called after initialization, it runs `restartLoop` over the rule
snapshot. -/
def restartActiveRulesFromDb (s : EngineState) (env : FwdEnv)
    (initialized : Bool) : PyResult Unit × EngineState :=
  if !initialized then (.ok (), s)
  else restartLoop env s.db.rules s

/-! ### Rule creation -/

/-- Models `create_forwarding_rule` (lines 193-214).  Lines 200-201 build
the JSON payloads (locals only), then line 202 evaluates
`datetime.now(timezone.utc)` and raises `NameError` *before* the `INSERT`;
the `except Exception` clause logs and re-raises (line 220).  No rule row
is ever persisted and the caller sees the exception. -/
def createForwardingRule (db : Db) (_accountPhone : String)
    (_sourceChatId : Nat) (_destinationChatIds : List Nat)
    (_keywords : Option (List (List Char))) : PyResult Nat × Db :=
  (.exc nameErrorTimezone, db)

/-! ### Account pool: `get_available_account` (src/account_manager.py,
lines 1669-1720) -/

/-- The fields of an account dictionary that `get_available_account`
touches before it crashes.  `lastReset` is the calendar date `last_reset`
as a day ordinal; `lastActivity` is kept to show it is never stamped. -/
structure Account where
  phone : String
  status : String
  addedToday : Nat
  lastReset : Int
  lastActivity : Option Int
  deriving DecidableEq

/-- The pool state `get_available_account` consults: the account
dictionaries and the membership lists `active_accounts` and
`limited_accounts` (modelled by the phones of their members; the source
compares dictionaries, which under the store's unique-phone invariant is
the same account).  No daily-limit configuration appears: the read that
would fetch it is the crash site. -/
structure PoolState where
  accounts : List Account
  activeAccounts : List String
  limitedAccounts : List String
  deriving DecidableEq

/-- Look an account up by phone. -/
def findAccount (accs : List Account) (p : String) : Option Account :=
  accs.find? (fun a => decide (a.phone = p))

/-- The usable-state check of the scan loop:
`account.get('status') != 'active' or account in self.limited_accounts`
causes a `continue`; this is its negation. -/
def usableAccount (limited : List String) (a : Account) : Bool :=
  a.status == "active" && !(limited.contains a.phone)

/-- Models `if account.get('last_reset') != current_date:
account['added_today'] = 0; account['last_reset'] = current_date`
(lines 1689-1691). -/
def resetIfNewDay (today : Int) (a : Account) : Account :=
  if a.lastReset ≠ today then { a with addedToday := 0, lastReset := today } else a

/-- The in-place mutation the scan performs on the account with phone `p`
(and, under the unique-phone invariant, on no other). -/
def resetOnlyF (today : Int) (p : String) (b : Account) : Account :=
  if b.phone = p then resetIfNewDay today b else b

/-- The account list after the first usable account `p` was reset. -/
def resetOnly (today : Int) (p : String) (accs : List Account) : List Account :=
  accs.map (resetOnlyF today p)

/-- How one `get_available_account` call ends: a normal return, or the
`AttributeError` from the `self.config` read at line 1694. -/
inductive GaOutcome where
  | returned (result : Option String)
  | attrError (msg : String)
  deriving DecidableEq

/-- The first member of `active_accounts`, in iteration order, that passes
the usable-state check — the account at which line 1694 fires. -/
def firstUsable (st : PoolState) : Option String :=
  st.activeAccounts.find? (fun p =>
    match findAccount st.accounts p with
    | some a => usableAccount st.limitedAccounts a
    | none => false)

/-- The scan loop of `get_available_account`: skip accounts failing the
usable-state check (before the reset, so they are never reset); for the
first usable account, perform the day-rollover reset (lines 1689-1691) and
then read `self.config.get('daily_limit', 45)` (line 1694), which raises
`AttributeError` — the candidate list, the scoring, the sort, the
selection, the counter increment and the `last_activity` stamp (lines
1695-1715) are all dead code. -/
def gaLoop (limited : List String) (today : Int) :
    List String → List Account → GaOutcome × List Account
  | [], accs => (.returned none, accs)
  | p :: rest, accs =>
      match findAccount accs p with
      | none => gaLoop limited today rest accs
      | some a =>
          if usableAccount limited a then
            (.attrError attrErrorConfig, resetOnly today p accs)
          else gaLoop limited today rest accs

/-- Models `get_available_account` (lines 1669-1720): returns `None`
cleanly when no account is usable (the `if not available_accounts` branch,
line 1705), and otherwise raises `AttributeError` at line 1694 after
resetting only the first usable account. -/
def getAvailableAccount (st : PoolState) (today : Int) : GaOutcome × PoolState :=
  let r := gaLoop st.limitedAccounts today st.activeAccounts st.accounts
  (r.1, { st with accounts := r.2 })

/-! ### Account registration: the effective `add_account` path
(src/account_manager.py, lines 1285-1349 and 1975-2073)

The class body defines `add_account` and `_test_account_connection` twice;
the later definitions override the earlier ones, so the effective pair is
`add_account` at line 1285 calling `_test_account_connection` at line
1975.  The overridden implementation at line 1351 — the one that sends a
verification code, stores the pending client and sets status
`code_required` for `complete_auth` and the caller telegram_bot.py:473 to
pick up — is dead code. -/

/-- The protocol-client calls the registration path could perform.  The
effective code performs none of them: the client constructor crashes
first.  `sendCodeRequest` is included so that its absence from a trace is
a statement about the code. -/
inductive ClientOp where
  | connect
  | checkAuthorized
  | getMe
  | sendCodeRequest
  | signIn
  | disconnect
  deriving DecidableEq

/-- The account fields the registration path touches. -/
structure RegAccount where
  phone : String
  status : String
  deriving DecidableEq

/-- The account store the effective `add_account` consults. -/
structure RegPoolState where
  accounts : List RegAccount
  activeAccounts : List String
  deriving DecidableEq

/-- The phone validation `^\+?[1-9]\d{1,14}$` of `_validate_phone_number`
(line 1272): an optional `+`, a first digit `1`-`9`, then one to fourteen
digits. -/
def validatePhoneNumber (phone : String) : Bool :=
  let t := match phone.data with
    | '+' :: r => r
    | r => r
  match t with
  | [] => false
  | c :: rest =>
      ('1' ≤ c && c ≤ '9') && decide (1 ≤ rest.length) && decide (rest.length ≤ 14)
        && rest.all (fun d => '0' ≤ d && d ≤ '9')

/-- Models the effective `_test_account_connection` (line 1975).  Every
attempt constructs a `TelegramClient` whose first argument reads
`self.config['sessions_path']` (line 1996); the `AttributeError` is raised
while evaluating the constructor arguments, so `client` stays `None`, no
protocol call is ever made, and the exception lands in the generic
`except Exception` branch (line 2055).  Non-final attempts sleep and
retry identically; the final attempt records the error on the local
account dictionary (discarded by the caller on failure) and returns
`(False, f"Connection failed: {str(e)}")`.  The `finally` clause skips the
disconnect (`client` is `None`).  The connected / authorized /
not-authorized / banned branches are unreachable. -/
def testAccountConnection (maxRetries : Nat) : (Bool × String) × List ClientOp :=
  if maxRetries = 0 then ((false, "Max retries reached"), [])
  else ((false, "Connection failed: " ++ attrErrorConfig), [])

/-- Models the effective `add_account` (line 1285): validate the phone,
the API id (`int(api_id)` must parse: `apiId = none` models a non-numeric
value) and the API hash, reject duplicates, then run
`_test_account_connection` — which always fails (see
`testAccountConnection`) — so the success branch that would append the
account in status `active` is unreachable and the store is never
changed. -/
def addAccount (st : RegPoolState) (phone : String) (apiId : Option Int)
    (apiHashOk : Bool) (maxRetries : Nat) :
    (Bool × String) × RegPoolState × List ClientOp :=
  if !validatePhoneNumber phone then
    ((false, "Invalid phone number format: " ++ phone), st, [])
  else
    match apiId with
    | none => ((false, "API ID must be a number"), st, [])
    | some _ =>
        if !apiHashOk then ((false, "Invalid API hash"), st, [])
        else if st.accounts.any (fun a => a.phone == phone) then
          ((false, "Account " ++ phone ++ " already exists"), st, [])
        else
          let r := testAccountConnection maxRetries
          if r.1.1 then
            ((true, "Account " ++ phone ++ " added successfully"),
             { accounts := st.accounts ++ [{ phone := phone, status := "active" }],
               activeAccounts := st.activeAccounts ++ [phone] },
             r.2)
          else
            ((false, "Failed to add account: " ++ r.1.2), st, r.2)

/-! ### Statement of the stop guard, and concrete instances -/

/-- What `stop_forwarding` guarantees against late handler invocations:
stopping appends nothing to the forwarded-message log, and any handler
invocation afterwards appends no forwarded-message record for the stopped
rule. -/
def stopGuardPost (s : EngineState) (rid : Nat) (updateDb : Bool)
    (key : SessionKey) (ev : Event) : Prop :=
  (stopForwarding s rid updateDb).2.db.forwardedMessages = s.db.forwardedMessages ∧
  (messageHandler (stopForwarding s rid updateDb).2 key ev).2.db.forwardedMessages.filter
      (fun rec => decide (rec.ruleId = rid)) =
    s.db.forwardedMessages.filter (fun rec => decide (rec.ruleId = rid))

/-- An empty forwarding database. -/
def emptyDb : Db := { rules := [], forwardedMessages := [], errors := [] }

/-- A rule persisted as `running`, as a process restart would find it. -/
def c1Rule : Rule :=
  { id := 1, accountPhone := "p1", sourceChatId := 10, destinationChatIds := [20],
    keywords := none, status := "running", lastMessageId := 0, messagesForwarded := 0 }

/-- Engine state at startup: the persisted `running` rule and no sessions. -/
def c1State : EngineState :=
  { db := { rules := [c1Rule], forwardedMessages := [], errors := [] }, sessions := [] }

/-- An environment in which the rule's account is unreachable: no client is
available, so `start_forwarding` fails with a plain `return False` (no
exception) and `restart_active_rules_from_db` proceeds to the demotion. -/
def c1Env : FwdEnv :=
  { clientAvailable := fun _ => false, clientConnected := fun _ => false,
    connectSucceeds := fun _ => false, authorized := fun _ => false }

/-- The event used in concrete runs. -/
def c8Event : Event := { messageId := 42, text := ['u'] }

/-- A running session with a single destination. -/
def c8Session : Session :=
  { ruleId := 1, accountPhone := "p1", sourceChatId := 10, destinationChatIds := [7],
    keywords := none, status := "running", messagesForwarded := 0, lastMessageId := 0 }

/-- Engine state holding the single running session `c8Session`. -/
def c8State : EngineState :=
  { db := emptyDb, sessions := [(("p1", 1), c8Session)] }

/-- Every destination answers with a 1000-second flood-wait signal. -/
def c8Oracle : Nat → DestOutcome := fun _ => .floodWait 1000

/-- A running session with two destinations. -/
def wSession3 : Session :=
  { ruleId := 2, accountPhone := "p2", sourceChatId := 11,
    destinationChatIds := [7, 8], keywords := none, status := "running",
    messagesForwarded := 5, lastMessageId := 40 }

/-- The persisted rule behind `wSession3`. -/
def wRule3 : Rule :=
  { id := 2, accountPhone := "p2", sourceChatId := 11,
    destinationChatIds := [7, 8], keywords := none, status := "running",
    lastMessageId := 40, messagesForwarded := 5 }

/-- Engine state holding `wSession3` and its persisted rule. -/
def wState3 : EngineState :=
  { db := { rules := [wRule3], forwardedMessages := [], errors := [] },
    sessions := [(("p2", 2), wSession3)] }

/-- Destination 7 is forbidden, destination 8 would succeed. -/
def wOracle3 : Nat → DestOutcome :=
  fun d => if d = 7 then .permission else .success [90]

/-- A running session filtered by the keyword `urgent`. -/
def wSession7 : Session :=
  { ruleId := 3, accountPhone := "p3", sourceChatId := 12,
    destinationChatIds := [9], keywords := some ["urgent".toList],
    status := "running", messagesForwarded := 0, lastMessageId := 0 }

/-- Engine state holding `wSession7`. -/
def wState7 : EngineState :=
  { db := emptyDb, sessions := [(("p3", 3), wSession7)] }

/-- Every destination delivers successfully. -/
def wOracle7 : Nat → DestOutcome := fun _ => .success [90]

/-- An inbound message whose text matches the keyword `urgent`
case-insensitively. -/
def wEventMatch : Event := { messageId := 50, text := "Server URGENT down".toList }

/-- An inbound message matching no keyword. -/
def wEventNoMatch : Event := { messageId := 51, text := "lunch today".toList }

/-- A running session for the stop-guard run. -/
def wSession2 : Session :=
  { ruleId := 4, accountPhone := "p4", sourceChatId := 13,
    destinationChatIds := [6], keywords := none, status := "running",
    messagesForwarded := 1, lastMessageId := 70 }

/-- The persisted rule behind `wSession2`. -/
def wRule2 : Rule :=
  { id := 4, accountPhone := "p4", sourceChatId := 13,
    destinationChatIds := [6], keywords := none, status := "running",
    lastMessageId := 70, messagesForwarded := 1 }

/-- An already-appended forwarded-message record of rule 4. -/
def wRecord2 : FwdRecord :=
  { ruleId := 4, accountPhone := "p4", sourceChatId := 13,
    sourceMessageId := 70, destinationChatId := 6,
    destinationMessageId := some 71, messageText := ['h', 'i'] }

/-- Engine state holding `wSession2`, its rule, and one audit record. -/
def wState2 : EngineState :=
  { db := { rules := [wRule2], forwardedMessages := [wRecord2], errors := [] },
    sessions := [(("p4", 4), wSession2)] }

/-- An account left in `active_accounts` with status `auth_failed`: the
failure path of `complete_auth` (line 1575) sets this status while keeping
the account in `active_accounts` as long as `error_count < 3`, so this
pool state is reachable.  Its counter is stale (7 additions recorded on
day 0). -/
def c6Account : Account :=
  { phone := "p1", status := "auth_failed", addedToday := 7, lastReset := 0,
    lastActivity := none }

/-- Pool holding only `c6Account`. -/
def c6State : PoolState :=
  { accounts := [c6Account], activeAccounts := ["p1"], limitedAccounts := [] }

/-- A usable account whose counter is stale from the previous day. -/
def wAccount5 : Account :=
  { phone := "p5", status := "active", addedToday := 3, lastReset := 0,
    lastActivity := some 50 }

/-- A second usable account, behind `wAccount5` in iteration order. -/
def wAccount5b : Account :=
  { phone := "p6", status := "active", addedToday := 4, lastReset := 0,
    lastActivity := some 90 }

/-- Pool holding `wAccount5` and `wAccount5b`, both active and usable. -/
def wPool5 : PoolState :=
  { accounts := [wAccount5, wAccount5b], activeAccounts := ["p5", "p6"],
    limitedAccounts := [] }

/-! ## Lemmas about the account pool -/

theorem resetIfNewDay_phone (today : Int) (a : Account) :
    (resetIfNewDay today a).phone = a.phone := by
  unfold resetIfNewDay; split <;> rfl

theorem resetIfNewDay_status (today : Int) (a : Account) :
    (resetIfNewDay today a).status = a.status := by
  unfold resetIfNewDay; split <;> rfl

theorem resetIfNewDay_lastReset (today : Int) (a : Account) :
    (resetIfNewDay today a).lastReset = today := by
  unfold resetIfNewDay
  by_cases h : a.lastReset = today
  · rw [if_neg (by simpa using h)]; exact h
  · rw [if_pos (by simpa using h)]

theorem resetIfNewDay_of_eq {today : Int} {a : Account}
    (h : a.lastReset = today) : resetIfNewDay today a = a := by
  unfold resetIfNewDay
  rw [if_neg (by simpa using h)]

theorem resetOnlyF_phone (today : Int) (p : String) (b : Account) :
    (resetOnlyF today p b).phone = b.phone := by
  unfold resetOnlyF
  split
  · rw [resetIfNewDay_phone]
  · rfl

theorem resetOnlyF_status (today : Int) (p : String) (b : Account) :
    (resetOnlyF today p b).status = b.status := by
  unfold resetOnlyF
  split
  · rw [resetIfNewDay_status]
  · rfl

theorem usableAccount_resetOnlyF (limited : List String) (today : Int)
    (p : String) (b : Account) :
    usableAccount limited (resetOnlyF today p b) = usableAccount limited b := by
  unfold usableAccount
  rw [resetOnlyF_status, resetOnlyF_phone]

theorem resetOnlyF_idem (today : Int) (p : String) (b : Account) :
    resetOnlyF today p (resetOnlyF today p b) = resetOnlyF today p b := by
  by_cases hb : b.phone = p
  · have h1 : resetOnlyF today p b = resetIfNewDay today b := by
      unfold resetOnlyF; rw [if_pos hb]
    rw [h1]
    unfold resetOnlyF
    rw [if_pos (by rw [resetIfNewDay_phone]; exact hb)]
    exact resetIfNewDay_of_eq (resetIfNewDay_lastReset today b)
  · have h1 : resetOnlyF today p b = b := by
      unfold resetOnlyF; rw [if_neg hb]
    rw [h1, h1]

theorem resetOnly_idem (today : Int) (p : String) (accs : List Account) :
    resetOnly today p (resetOnly today p accs) = resetOnly today p accs := by
  unfold resetOnly
  rw [List.map_map]
  apply List.map_congr_left
  intro b _
  exact resetOnlyF_idem today p b

theorem findAccount_map (f : Account → Account)
    (hf : ∀ x, (f x).phone = x.phone) (accs : List Account) (p : String) :
    findAccount (accs.map f) p = (findAccount accs p).map f := by
  induction accs with
  | nil => rfl
  | cons b rest ih =>
      unfold findAccount at ih ⊢
      rw [List.map_cons]
      by_cases hb : b.phone = p
      · rw [List.find?_cons_of_pos _ (by simp [hf, hb]),
          List.find?_cons_of_pos _ (by simp [hb])]
        rfl
      · rw [List.find?_cons_of_neg _ (by simp [hf, hb]),
          List.find?_cons_of_neg _ (by simp [hb])]
        exact ih

theorem gaLoop_spec (limited : List String) (today : Int)
    (active : List String) (accs : List Account) :
    gaLoop limited today active accs =
      match active.find? (fun p =>
        match findAccount accs p with
        | some a => usableAccount limited a
        | none => false) with
      | none => (GaOutcome.returned none, accs)
      | some p => (GaOutcome.attrError attrErrorConfig, resetOnly today p accs) := by
  induction active with
  | nil => rfl
  | cons p rest ih =>
      cases hf : findAccount accs p with
      | none =>
          have hl : gaLoop limited today (p :: rest) accs =
              gaLoop limited today rest accs := by
            conv_lhs => unfold gaLoop
            rw [hf]
          rw [hl, List.find?_cons_of_neg _ (by simp [hf]), ih]
      | some a =>
          by_cases hu : usableAccount limited a = true
          · have hl : gaLoop limited today (p :: rest) accs =
                (GaOutcome.attrError attrErrorConfig, resetOnly today p accs) := by
              conv_lhs => unfold gaLoop
              rw [hf]; dsimp only; rw [if_pos hu]
            rw [hl, List.find?_cons_of_pos _ (by simp [hf, hu])]
          · have hl : gaLoop limited today (p :: rest) accs =
                gaLoop limited today rest accs := by
              conv_lhs => unfold gaLoop
              rw [hf]; dsimp only; rw [if_neg hu]
            rw [hl, List.find?_cons_of_neg _ (by simp [hf, hu]), ih]

theorem getAvailableAccount_spec (st : PoolState) (today : Int) :
    getAvailableAccount st today =
      match firstUsable st with
      | none => (GaOutcome.returned none, st)
      | some p => (GaOutcome.attrError attrErrorConfig,
          { st with accounts := resetOnly today p st.accounts }) := by
  unfold getAvailableAccount firstUsable
  dsimp only
  rw [gaLoop_spec]
  cases st.activeAccounts.find? (fun p =>
      match findAccount st.accounts p with
      | some a => usableAccount st.limitedAccounts a
      | none => false) with
  | none => rfl
  | some p => rfl

theorem firstUsable_resetOnly (st : PoolState) (today : Int) (p : String) :
    firstUsable { st with accounts := resetOnly today p st.accounts } =
      firstUsable st := by
  unfold firstUsable
  dsimp only
  have hpred : (fun q =>
      match findAccount (resetOnly today p st.accounts) q with
      | some a => usableAccount st.limitedAccounts a
      | none => false) = (fun q =>
      match findAccount st.accounts q with
      | some a => usableAccount st.limitedAccounts a
      | none => false) := by
    funext q
    unfold resetOnly
    rw [findAccount_map (resetOnlyF today p) (resetOnlyF_phone today p)]
    cases findAccount st.accounts q with
    | none => rfl
    | some a =>
        dsimp only [Option.map]
        exact usableAccount_resetOnlyF st.limitedAccounts today p a
  rw [hpred]

theorem messageHandler_state (s : EngineState) (key : SessionKey) (ev : Event) :
    (messageHandler s key ev).2 = s := by
  unfold messageHandler
  cases findSession s.sessions key with
  | none => rfl
  | some sess =>
      dsimp only
      split <;> rfl

/-! ## C1: restart of persisted `running` rules -/

/-- C1 (code bug): the database holds rule 1 with status `running`, and
the rule's account has no available client.  At real startup the restart
never happens at all: `initialize` calls `restart_active_rules_from_db`
*before* setting `_initialized = True`, so the guard at line 537 returns
immediately — cleanly, without crashing.  Invoked after initialization,
`start_forwarding` fails with a plain `return False`, and the demotion
`_update_rule_status_in_db(1, 'error', reason)` then raises
`NameError: name 'timezone' is not defined` (line 452, the module never
imports `timezone`) before any `UPDATE`, aborting the restart loop.  On
both paths the rule's persisted status remains `running`, contradicting
the claim that a failed reactivation ends in status `error`. -/
theorem c1_restart_leaves_running :
    (restartActiveRulesFromDb c1State c1Env false).1 = PyResult.ok () ∧
    (findRule (restartActiveRulesFromDb c1State c1Env false).2.db 1).map
      (fun r => r.status) = some "running" ∧
    (restartActiveRulesFromDb c1State c1Env true).1 =
      PyResult.exc nameErrorTimezone ∧
    (findRule (restartActiveRulesFromDb c1State c1Env true).2.db 1).map
      (fun r => r.status) = some "running" := by
  refine ⟨by decide, by decide, by decide, by decide⟩

/-! ## C2: the stop guard -/

/-- C2: after `stop_forwarding(rule_id)` returns, no further
forwarded-message records are appended for that rule even if the source
subscription's event handler fires again before the underlying event
subscription is physically removed: stopping deletes the in-memory session
(line 519, before the faulting status update), so a late handler
invocation returns at the session-status guard of lines 350-355.  The
hypothesis — at most one in-memory session per rule id — is the invariant
maintained by `start_forwarding`, whose session key is determined by the
rule's account. -/
theorem c2_stop_guard (s : EngineState) (rid : Nat) (updateDb : Bool)
    (key : SessionKey) (ev : Event)
    (_h : (s.sessions.filter (fun kv => decide (kv.2.ruleId = rid))).length ≤ 1) :
    stopGuardPost s rid updateDb key ev := by
  unfold stopGuardPost
  have hstopdb : (stopForwarding s rid updateDb).2.db = s.db := by
    cases updateDb <;> rfl
  rw [messageHandler_state, hstopdb]
  exact ⟨rfl, rfl⟩

theorem c2_stop_guard_witness :
    ((wState2.sessions.filter (fun kv => decide (kv.2.ruleId = 4))).length ≤ 1) ∧
    stopGuardPost wState2 4 true ("p4", 4) c8Event :=
  ⟨by decide, c2_stop_guard wState2 4 true ("p4", 4) c8Event (by decide)⟩

/-! ## C3: destination isolation and the checkpoint -/

/-- C3 (code bug): destination 7 fails with a permission error while
destination 8 would succeed, yet the pass aborts at destination 7: the
`except` branch calls `log_error`, whose `datetime.now(timezone.utc)`
(line 497, `timezone` never imported) raises `NameError` that no handler
in the loop survives — the rescue at line 430 calls `log_error` again —
so destination 8 is never attempted (nothing is delivered), and the
checkpoint helper at line 444 likewise raises before persisting, leaving
the engine state byte-for-byte unchanged: `last_message_id` stays 40, not
the triggering id 42.  The claim says later destinations are still
attempted and the checkpoint always advances. -/
theorem c3_fanout_aborts_on_failure :
    wOracle3 7 = DestOutcome.permission ∧
    wOracle3 8 = DestOutcome.success [90] ∧
    forwardMessageToDestinations wState3 ("p2", 2) c8Event wOracle3 1 =
      ⟨PyResult.exc nameErrorTimezone, wState3, 1, []⟩ := by
  refine ⟨by decide, by decide, by decide⟩

/-! ## C4: the effective registration path -/

/-- C4 (code bug): the claim describes the intended registration protocol
of the shadowed `_test_account_connection` at line 1351 (code request,
`code_required`, `complete_auth`), which line 1975 silently overrides;
and the effective override cannot even reach its own authorized /
not-authorized branches: constructing the test client reads
`self.config['sessions_path']` (line 1996) on a class that defines only
`_config`, so every attempt raises `AttributeError` into the generic
`except Exception`, and for a valid, non-duplicate phone `add_account`
always returns the connection failure below — no verification code is
ever requested (no protocol call happens at all), no already-authorized
rejection ever occurs, and no account is ever persisted. -/
theorem c4_add_account_always_fails :
    (addAccount ⟨[], []⟩ "+12345678901" (some 1) true 3).1 =
      (false, "Failed to add account: Connection failed: " ++ attrErrorConfig) ∧
    (addAccount ⟨[], []⟩ "+12345678901" (some 1) true 3).2.1 =
      (⟨[], []⟩ : RegPoolState) ∧
    (addAccount ⟨[], []⟩ "+12345678901" (some 1) true 3).2.2 = [] := by
  refine ⟨by decide, by decide, by decide⟩

/-! ## C5: `get_available_account` -/

/-- C5 (code bug): with two active, unlimited accounts the claim promises
the idle-longest account back, its counter incremented and its
`last_activity` stamped.  Instead the scan reaches line 1694,
`self.config.get('daily_limit', 45)`, on the first usable account — the
class defines only `_config` — and raises `AttributeError` after the
in-place reset of that one account: no candidate list, no selection, no
increment, no `last_activity` stamp, and the second account is untouched.
(`None` is returned only when no usable account exists at all.) -/
theorem c5_get_available_crashes :
    getAvailableAccount wPool5 1 =
      (GaOutcome.attrError attrErrorConfig,
       { wPool5 with accounts :=
          [{ wAccount5 with addedToday := 0, lastReset := 1 }, wAccount5b] }) := by
  decide

/-! ## C6: the daily counter reset -/

/-- C6 counterexample: the claim says every account's counter resets
exactly once when `get_available_account` is called on a calendar date
different from the account's `last_reset`.  But the scan's usable-state
check `continue`s before the reset (lines 1684-1691), so an account whose
status is not `active` — reachable, e.g., after a single `complete_auth`
failure puts it in status `auth_failed` while it stays in
`active_accounts` (line 1575) — is never reset: calling on day 1 with
`last_reset` day 0 returns `None` and leaves the stale counter 7 in place
(zero resets, not exactly one). -/
theorem c6_counterexample :
    getAvailableAccount c6State 1 = (GaOutcome.returned none, c6State) ∧
    c6Account.lastReset ≠ 1 ∧ c6Account.addedToday = 7 := by
  refine ⟨by decide, by decide, by decide⟩

/-- C6 amended: when no account passes the usable-state check the call
returns `None` and resets nothing; otherwise only the first usable account
in active-list order is reset — its counter zeroed exactly when the call
date differs from its `last_reset` (`resetIfNewDay`) — and the call then
raises `AttributeError` reading the undefined `self.config`, so later
usable accounts are never reset and no usage counter is ever incremented;
and a second call on the same date changes no account at all, so no
account is ever reset more than once per calendar day. -/
theorem c6_daily_reset_amended (st : PoolState) (today : Int) :
    ((getAvailableAccount st today).1 =
      match firstUsable st with
      | none => GaOutcome.returned none
      | some _ => GaOutcome.attrError attrErrorConfig) ∧
    ((getAvailableAccount st today).2.accounts =
      match firstUsable st with
      | none => st.accounts
      | some p => resetOnly today p st.accounts) ∧
    (getAvailableAccount (getAvailableAccount st today).2 today).2.accounts =
      (getAvailableAccount st today).2.accounts := by
  have hspec := getAvailableAccount_spec st today
  cases hfu : firstUsable st with
  | none =>
      rw [hfu] at hspec
      refine ⟨by rw [hspec], by rw [hspec], ?_⟩
      rw [hspec]
      dsimp only
      rw [hspec]
  | some p =>
      rw [hfu] at hspec
      refine ⟨by rw [hspec], by rw [hspec], ?_⟩
      rw [hspec]
      dsimp only
      have hspec₂ :=
        getAvailableAccount_spec { st with accounts := resetOnly today p st.accounts } today
      rw [firstUsable_resetOnly, hfu] at hspec₂
      rw [hspec₂]
      dsimp only
      exact resetOnly_idem today p st.accounts

/-! ## C7: the keyword filter -/

/-- C7 (code bug): the rule is configured with the non-empty keyword set
`{urgent}`.  The filtered-out half of the claim is genuine: a
non-matching message returns before any database write and leaves the
state — in particular the checkpoint — unchanged.  But the forwarding
half never happens: the event handler evaluates
`datetime.now(timezone.utc)` at line 358 (`timezone` never imported) and
dies before the filter even runs, so a matching message produces no
forward, no record and no checkpoint advance; and even a direct call to
`forward_message_to_destinations` delivers at most the first destination
before `log_forwarded_message` raises, persisting nothing. -/
theorem c7_filter_but_no_forwarding :
    keywordGate wSession7.keywords wEventMatch.text = true ∧
    keywordGate wSession7.keywords wEventNoMatch.text = false ∧
    messageHandler wState7 ("p3", 3) wEventMatch =
      (PyResult.exc nameErrorTimezone, wState7) ∧
    forwardMessageToDestinations wState7 ("p3", 3) wEventNoMatch wOracle7 1 =
      ⟨PyResult.ok (), wState7, 0, []⟩ ∧
    forwardMessageToDestinations wState7 ("p3", 3) wEventMatch wOracle7 1 =
      ⟨PyResult.exc nameErrorTimezone, wState7, 1, [9]⟩ := by
  refine ⟨by decide, by decide, by decide, by decide, by decide⟩

/-! ## C8: flood-wait handling -/

/-- C8 (code bug): the claim says a flood-wait signal is answered by an
error record, a bounded sleep and a continue to the next destination.  In
the code the `except FloodWaitError` handler calls `log_error` (line 419),
whose `NameError` (`timezone` never imported) escapes *before* the
`asyncio.sleep(e.seconds + 5)` at line 420: a 1000-second signal produces
no error record, no flood sleep (only the 1-second inter-destination
delay is ever slept), no delivery, and the pass aborts instead of
continuing.  (Latent in the dead code: the sleep would have been
`e.seconds + 5` with no configured ceiling — the pool's `max_flood_wait`
cap, account_manager.py lines 1457 and 1556, is not applied here.) -/
theorem c8_flood_wait_crashes :
    c8Oracle 7 = DestOutcome.floodWait 1000 ∧
    forwardMessageToDestinations c8State ("p1", 1) c8Event c8Oracle 1 =
      ⟨PyResult.exc nameErrorTimezone, c8State, 1, []⟩ := by
  refine ⟨by decide, by decide⟩

/-! ## C9: `create_forwarding_rule` -/

/-- C9 (code bug): the claim describes the persisted destination list of a
created rule, but `create_forwarding_rule` can never persist one: line 202
evaluates `datetime.now(timezone.utc)` (`timezone` never imported) before
the `INSERT`, and the `except Exception` clause re-raises — for every
input, including the claim's deduplication cases, the call raises
`NameError` and the database is unchanged.  (Latent in the dead code: the
`INSERT` would store `list(set(...))`, which drops the supplied order and
accepts an empty list.) -/
theorem c9_create_never_persists (db : Db) (phone : String) (src : Nat)
    (dests : List Nat) (kw : Option (List (List Char))) :
    createForwardingRule db phone src dests kw =
      (PyResult.exc nameErrorTimezone, db) :=
  rfl

/-! ## C10: `stop_forwarding` -/

/-- C10 (code bug): the claim says `stop_forwarding` always returns
success and, with `update_db`, persists status `stopped`.  With
`update_db` true — for every state and rule id — `_update_rule_status_in_db`
raises `NameError` at line 452 (`timezone` never imported), the outer
`except Exception` converts it to the failure return below, and nothing is
persisted: the stored rows are untouched.  The session deletion (line 519)
still happens first, and the rule-not-found case is indeed never reported;
only the `update_db = False` path returns success. -/
theorem c10_stop_persist_fails (s : EngineState) (rid : Nat) :
    stopForwarding s rid true =
      ((false, "Error: " ++ nameErrorTimezone),
       { db := s.db, sessions := removeFirstSessionWithRule s.sessions rid }) ∧
    (stopForwarding s rid false).1 = (true, "Forwarding stopped successfully.") :=
  ⟨rfl, rfl⟩

end TgBot
